import Mathlib

/-!
Shallow embedding of the bookshop backend (src/backend/app.py, models.py).

Conventions of the embedding:
- JSON numbers are modelled as Int, JSON strings as String; an absent JSON
  field is modelled with Option (data.get returns None when missing).
- Python truthiness on request fields (the idiom `if not x`) is modelled by
  truthyInt / truthyStr: None, 0 and the empty string are falsy.
- Each SQLAlchemy model class becomes a record; the whole database session
  becomes the record DB, which also carries the Flask server-side session
  (session.get, used by the is_admin helper) and an abstract clock standing
  for datetime.utcnow.
- Each Flask-RESTful handler becomes a function from its request data and a
  DB to a response value paired with the successor DB. Handlers that only
  read return just the response. A write the schema accepts (registration)
  is modelled as appending the row on commit; a write the schema rejects
  (the cart and payment handlers, whose INSERTs violate declared NOT NULL
  columns) is modelled by an integrityError response carrying the staged
  values, with the state unchanged, since the uncaught IntegrityError
  surfaces as HTTP 500 and the request transaction rolls back.
  Autoincrement primary keys are modelled as list length + 1, which
  coincides with max+1 on states built by the operations (ids run 1..n and
  nothing is deleted).
-/

/-- A row of the users table (models.py, class User). -/
structure UserRec where
  id : Int
  name : String
  email : String
  password_hash : String
  is_admin : Bool
deriving Repr, DecidableEq

/-- A row of the books table (models.py, class Book). The price column is
Float in the schema; no claim computes with prices, so it is carried as Int. -/
structure BookRec where
  id : Int
  title : String
  author : String
  price : Int
  description : Option String
  stock : Int
  category_id : Option Int
  is_available_for_borrowing : Bool
deriving Repr, DecidableEq

/-- A row of the orders table (models.py, class Order). The books field is
the Order.books relationship list (ids of associated books), which the cart
handler appends to. -/
structure OrderRec where
  id : Int
  order_date : Int
  status : String
  user_id : Int
  books : List Int
deriving Repr, DecidableEq

/-- A row of the order_books association table
(models.py, order_books = Table(...)). -/
structure OrderBookRow where
  order_id : Int
  book_id : Int
  quantity : Int
deriving Repr, DecidableEq

/-- A row of the borrowings table (models.py, class Borrowing); dates are
abstract integers, return_date is nullable. -/
structure BorrowingRec where
  id : Int
  borrow_date : Int
  due_date : Int
  return_date : Option Int
  user_id : Int
  book_id : Int
deriving Repr, DecidableEq

/-- A row of the carts table (models.py, class Cart). -/
structure CartRec where
  id : Int
  user_id : Int
deriving Repr, DecidableEq

/-- A row of the cart_items table (models.py, class CartItem). -/
structure CartItemRec where
  id : Int
  cart_id : Int
  book_id : Int
  quantity : Int
deriving Repr, DecidableEq

/-- A row of the categories table (models.py, class Category). -/
structure CategoryRec where
  id : Int
  name : String
deriving Repr, DecidableEq

/-- A row of the mpesa_transactions table (models.py, class
MpesaTransaction). The column mpesa_receipt is declared unique and
nullable=False in the schema; it is carried as Option String here because
the handler constructs objects that leave it unset (None). -/
structure MpesaTransactionRec where
  id : Int
  user_id : Int
  amount : Int
  transaction_date : Int
  mpesa_receipt : Option String
  status : String
deriving Repr, DecidableEq

/-- The persistent state: all tables, the Flask server-side session value
session.get, read by is_admin and popped by AdminLogout, and an abstract
clock standing for datetime.utcnow. -/
structure DB where
  users : List UserRec
  books : List BookRec
  orders : List OrderRec
  order_books : List OrderBookRow
  borrowings : List BorrowingRec
  carts : List CartRec
  cart_items : List CartItemRec
  categories : List CategoryRec
  transactions : List MpesaTransactionRec
  session : Option Int
  now : Int
deriving Repr, DecidableEq

/-- Python truthiness of an optional integer request field: None and 0 are
falsy (the idiom `if not x`). -/
def truthyInt : Option Int → Bool
  | none => false
  | some n => !(n == 0)

/-- Python truthiness of an optional string request field: None and the
empty string are falsy. -/
def truthyStr : Option String → Bool
  | none => false
  | some s => !(s == "")

/-- models.py line 245: the mpesa_receipt column is nullable=False, so a
row satisfies the declared schema only when the receipt is set. -/
def mpesa_receipt_schema_ok (t : MpesaTransactionRec) : Bool :=
  t.mpesa_receipt.isSome

/-- models.py line 90: Order.VALID_STATUSES. -/
def VALID_STATUSES : List String :=
  ["Pending", "Shipped", "Delivered", "Cancelled"]

/-- The status set the spec (section 3) asserts for MpesaTransaction rows;
the code declares no validator for this column, so this list exists only to
state the claim. -/
def mpesaSpecStatuses : List String :=
  ["Pending", "Completed", "Failed"]

/-- Character class [a-zA-Z0-9_.+-] of the local part of the email pattern
(models.py line 33). -/
def emailLocalChar (c : Char) : Bool :=
  c.isAlpha || c.isDigit || c == '_' || c == '.' || c == '+' || c == '-'

/-- Character class [a-zA-Z0-9-] of the domain part. -/
def emailDomainChar (c : Char) : Bool :=
  c.isAlpha || c.isDigit || c == '-'

/-- Character class [a-zA-Z0-9-.] of the final part after the dot. -/
def emailTldChar (c : Char) : Bool :=
  c.isAlpha || c.isDigit || c == '-' || c == '.'

/-- models.py, User.validate_email: re.match against
^[a-zA-Z0-9_.+-]+@[a-zA-Z0-9-]+\.[a-zA-Z0-9-.]+$. The classes before @ and
before the dot exclude @ and the dot respectively, so the greedy
deterministic scan below is equivalent to the backtracking regex. (The re $
anchor would also admit one trailing newline; no claim exercises that.) -/
def validate_email (email : String) : Bool :=
  let cs := email.toList
  let lpart := cs.takeWhile emailLocalChar
  match cs.dropWhile emailLocalChar with
  | '@' :: rest =>
    let dpart := rest.takeWhile emailDomainChar
    (match rest.dropWhile emailDomainChar with
     | '.' :: tpart =>
       !lpart.isEmpty && !dpart.isEmpty && !tpart.isEmpty && tpart.all emailTldChar
     | _ => false)
  | _ => false

/-- User.query.get(uid): first user row with the given primary key. -/
def findUser (db : DB) (uid : Int) : Option UserRec :=
  db.users.find? (fun u => u.id == uid)

/-- app.py lines 39-45, helper is_admin(): reads user_id from the Flask
session (not from the JWT); False for a missing or falsy session value,
False for an unknown id, otherwise the stored flag. -/
def is_admin (db : DB) : Bool :=
  match db.session with
  | none => false
  | some uid =>
    if uid == 0 then false
    else
      match findUser db uid with
      | some u => u.is_admin
      | none => false

/-- Outcome of POST /register (app.py, Register.post). invalidEmail is the
ValueError raised by User.validate_email during User(...), which no handler
catches, so Flask surfaces it as HTTP 500. -/
inductive RegisterResult where
  | missingFields
  | emailExists
  | invalidEmail
  | created (u : UserRec)
deriving Repr, DecidableEq

/-- HTTP status of each Register.post outcome: 400 for the two handled
errors, 500 for the uncaught ValueError, 201 on creation. -/
def registerHttpStatus : RegisterResult → Nat
  | .missingFields => 400
  | .emailExists => 400
  | .invalidEmail => 500
  | .created _ => 201

/-- app.py lines 60-78, Register.post. hashFn stands for
bcrypt.generate_password_hash (an external library function); set_password
stores its output. The checks run in source order: missing fields, then
duplicate email, then the email-format validator that fires inside the User
constructor, then creation. -/
def Register_post (hashFn : String → String) (name email password : Option String)
    (db : DB) : RegisterResult × DB :=
  if !truthyStr name || !truthyStr email || !truthyStr password then
    (.missingFields, db)
  else
    let emailV := email.getD ""
    if db.users.any (fun u => u.email == emailV) then
      (.emailExists, db)
    else if !validate_email emailV then
      (.invalidEmail, db)
    else
      let u : UserRec :=
        { id := (db.users.length : Int) + 1
          name := name.getD ""
          email := emailV
          password_hash := hashFn (password.getD "")
          is_admin := false }
      (.created u, { db with users := db.users ++ [u] })

/-- Outcome of POST /login (app.py, Login.post); the handler only reads. -/
inductive LoginResult where
  | success (u : UserRec)
  | invalidCredentials
deriving Repr, DecidableEq

/-- app.py lines 81-99, Login.post. checkFn stands for
bcrypt.check_password_hash via User.check_password. The handler issues a
JWT for user.id; it writes nothing, in particular it does not set the Flask
session value that is_admin later reads. -/
def Login_post (checkFn : String → String → Bool) (email password : Option String)
    (db : DB) : LoginResult :=
  match db.users.find? (fun u => some u.email == email) with
  | some u =>
    if checkFn u.password_hash (password.getD "") then .success u
    else .invalidCredentials
  | none => .invalidCredentials

/-- Outcome of GET /cart (app.py, CartResource.get). -/
inductive CartGetResult where
  | noCart
  | ok (c : CartRec)
deriving Repr, DecidableEq

/-- app.py lines 128-139, CartResource.get: 404 when the authenticated user
has no cart row, otherwise the cart. -/
def CartResource_get (user_id : Int) (db : DB) : CartGetResult :=
  match db.carts.find? (fun c => c.user_id == user_id) with
  | some c => .ok c
  | none => .noCart

/-- The values of the explicit core INSERT into order_books that
CartResource.post builds (app.py lines 171-173). They are computed before
any flush, while the freshly added Order still has no primary key, so the
order_id value is absent (None) even though order_id is a primary-key
column of the association table. -/
structure StagedOrderBookInsert where
  order_id : Option Int
  book_id : Int
  quantity : Int
deriving Repr, DecidableEq

/-- models.py line 50: order_id is a primary-key column of order_books,
hence NOT NULL; a staged insert satisfies the schema only when its
order_id is present. -/
def order_books_insert_schema_ok (r : StagedOrderBookInsert) : Bool :=
  r.order_id.isSome

/-- Outcome of POST /cart (app.py, CartResource.post). integrityError is
the IntegrityError the database raises on the explicit association INSERT;
no handler catches it, so Flask surfaces it as HTTP 500 and the request
transaction rolls back. The constructor carries the staged insert values
as evidence. -/
inductive CartPostResult where
  | missingFields
  | bookNotFound
  | integrityError (ins : StagedOrderBookInsert)
deriving Repr, DecidableEq

/-- models.py line 52: the quantity column of order_books carries
default=1, so a row inserted without an explicit quantity gets quantity 1.
No live code path performs such an insert; the definition records the
schema default itself. -/
def order_books_insert_row (order_id book_id : Int) (quantity : Option Int) :
    OrderBookRow :=
  { order_id := order_id, book_id := book_id, quantity := quantity.getD 1 }

/-- app.py lines 141-177, CartResource.post: reject falsy book_id or
quantity with 400 (before any write); 404 when no book has the given id
(before any write); otherwise the handler stages a get-or-create of the
user cart and a new Order (status default Pending), appends the book to
the Order.books relationship (which stages an association row of its own
for the same (order, book) key), and then executes an explicit core INSERT
into order_books whose values were already built while order.id is still
None - a NOT NULL primary-key column. That INSERT raises IntegrityError
(and the staged relationship row would collide with it on the composite
key even with an id); the request surfaces as HTTP 500 and the transaction
rolls back, so no cart, order or association row persists and the state is
unchanged. -/
def CartResource_post (user_id : Int) (book_id quantity : Option Int)
    (db : DB) : CartPostResult × DB :=
  if !truthyInt book_id || !truthyInt quantity then
    (.missingFields, db)
  else
    match db.books.find? (fun b => b.id == book_id.getD 0) with
    | none => (.bookNotFound, db)
    | some book =>
      let _ := user_id
      (.integrityError { order_id := none, book_id := book.id,
                         quantity := quantity.getD 0 }, db)

/-- Outcome of POST /mpesa-transaction (app.py,
MpesaTransactionResource.post). integrityError is the IntegrityError the
database raises when the commit tries to INSERT the transaction with its
NOT NULL mpesa_receipt column unset; uncaught, it surfaces as HTTP 500 and
the transaction rolls back. The constructor carries the staged row as
evidence (its id field holds the key the autoincrement would assign). -/
inductive MpesaPostResult where
  | amountRequired
  | integrityError (t : MpesaTransactionRec)
deriving Repr, DecidableEq

/-- app.py lines 224-238, MpesaTransactionResource.post: reject a falsy
amount with 400 before any write; otherwise construct
MpesaTransaction(amount, user_id) - status defaults to Pending and
mpesa_receipt is left unset - and commit. The INSERT violates the
nullable=False mpesa_receipt column (models.py line 245), so the commit
raises IntegrityError, the request surfaces as HTTP 500, the transaction
rolls back, and no row persists: the state is unchanged. -/
def MpesaTransactionResource_post (user_id : Int) (amount : Option Int)
    (db : DB) : MpesaPostResult × DB :=
  if !truthyInt amount then
    (.amountRequired, db)
  else
    (.integrityError
      { id := (db.transactions.length : Int) + 1
        user_id := user_id
        amount := amount.getD 0
        transaction_date := db.now
        mpesa_receipt := none
        status := "Pending" }, db)

/-- app.py lines 241-246, UserOrders.get: all orders whose user_id equals
the JWT identity. -/
def UserOrders_get (user_id : Int) (db : DB) : List OrderRec :=
  db.orders.filter (fun o => o.user_id == user_id)

/-- app.py lines 249-254, UserBorrowings.get: all borrowings whose user_id
equals the JWT identity. -/
def UserBorrowings_get (user_id : Int) (db : DB) : List BorrowingRec :=
  db.borrowings.filter (fun b => b.user_id == user_id)

/-- Outcome of the admin listing endpoints: 403 or the full table. -/
inductive AdminListResult (α : Type) where
  | forbidden
  | ok (rows : List α)
deriving Repr, DecidableEq

/-- app.py lines 257-263, AdminUserList.get: jwt_required authenticates the
caller (tokenUserId), but the gate is the session-based is_admin helper,
which ignores the token identity. -/
def AdminUserList_get (tokenUserId : Int) (db : DB) : AdminListResult UserRec :=
  let _ := tokenUserId
  if !is_admin db then .forbidden else .ok db.users

/-- app.py lines 266-272, AdminTransactionList.get: same session-based gate. -/
def AdminTransactionList_get (tokenUserId : Int) (db : DB) :
    AdminListResult MpesaTransactionRec :=
  let _ := tokenUserId
  if !is_admin db then .forbidden else .ok db.transactions

/-- app.py lines 275-281, AdminBorrowingList.get: same session-based gate. -/
def AdminBorrowingList_get (tokenUserId : Int) (db : DB) :
    AdminListResult BorrowingRec :=
  let _ := tokenUserId
  if !is_admin db then .forbidden else .ok db.borrowings

/-- app.py lines 49-56, admin_check route: unlike the listing endpoints,
this gate uses the JWT identity. -/
def admin_check (tokenUserId : Int) (db : DB) : Bool :=
  match findUser db tokenUserId with
  | some u => u.is_admin
  | none => false

/-- app.py lines 284-287, AdminLogout.post: pops user_id from the session. -/
def AdminLogout_post (db : DB) : DB :=
  { db with session := none }

/-- One request to the public HTTP surface, with its request data. -/
inductive Op where
  | register (hashFn : String → String) (name email password : Option String)
  | login (checkFn : String → String → Bool) (email password : Option String)
  | cartGet (user_id : Int)
  | cartPost (user_id : Int) (book_id quantity : Option Int)
  | mpesaPost (user_id : Int) (amount : Option Int)
  | userOrders (user_id : Int)
  | userBorrowings (user_id : Int)
  | adminUsers (tokenUserId : Int)
  | adminTransactions (tokenUserId : Int)
  | adminBorrowings (tokenUserId : Int)
  | adminCheck (tokenUserId : Int)
  | adminLogout

/-- The state transition of each public operation; handlers that only read
leave the state unchanged. -/
def applyOp : Op → DB → DB
  | .register hashFn n e p, db => (Register_post hashFn n e p db).2
  | .login _ _ _, db => db
  | .cartGet _, db => db
  | .cartPost uid b q, db => (CartResource_post uid b q db).2
  | .mpesaPost uid a, db => (MpesaTransactionResource_post uid a db).2
  | .userOrders _, db => db
  | .userBorrowings _, db => db
  | .adminUsers _, db => db
  | .adminTransactions _, db => db
  | .adminBorrowings _, db => db
  | .adminCheck _, db => db
  | .adminLogout, db => AdminLogout_post db

/-- A sequence of public operations applied in order. -/
def applyOps (ops : List Op) (db : DB) : DB :=
  ops.foldl (fun s op => applyOp op s) db

/-- No user row carries the admin flag. -/
def noAdmins (db : DB) : Bool :=
  db.users.all (fun u => !u.is_admin)

/-- Every association row carries a quantity of at least 1. -/
def orderBooksGeOne (db : DB) : Bool :=
  db.order_books.all (fun r => decide (1 ≤ r.quantity))

/-- Every stored transaction has positive amount and a status in the spec
status set. -/
def mpesaTransactionsInv (db : DB) : Bool :=
  db.transactions.all
    (fun t => decide (0 < t.amount) && decide (t.status ∈ mpesaSpecStatuses))

/-- The empty database with an empty Flask session. -/
def emptyDB : DB :=
  { users := [], books := [], orders := [], order_books := [], borrowings := []
    carts := [], cart_items := [], categories := [], transactions := []
    session := none, now := 0 }

/-- Concrete stand-in for bcrypt.generate_password_hash in witnesses; it
prepends a character, so its output never equals its input. -/
def fixtureHash (p : String) : String := "#" ++ p

/-- A small concrete state in the image of the seed script: one user
(Alice, as seeded, not an admin), one book with id 1, nothing else, empty
session. Used as the starting point for concrete runs. -/
def db0 : DB :=
  { emptyDB with
      users := [{ id := 1, name := "Alice", email := "alice@example.com"
                  password_hash := fixtureHash "password", is_admin := false }]
      books := [{ id := 1, title := "The Great Gatsby"
                  author := "F. Scott Fitzgerald", price := 10
                  description := none, stock := 5, category_id := some 1
                  is_available_for_borrowing := true }] }

/-- Like db0 but the single user is an admin (a seeded admin account). -/
def dbAdmin : DB :=
  { db0 with
      users := [{ id := 1, name := "Alice", email := "alice@example.com"
                  password_hash := fixtureHash "password", is_admin := true }] }

/-- db0 extended with one transaction as the seed script stores it (seed.py
line 140: amount 100.0, receipt 123456, status Completed). -/
def dbSeeded : DB :=
  { db0 with
      transactions := [{ id := 1, user_id := 1, amount := 100
                         transaction_date := 0
                         mpesa_receipt := some "123456"
                         status := "Completed" }] }

/-! ## Helper lemmas shared by the claim theorems -/

/-- Register_post either leaves the state unchanged (an error branch) or
appends one user row whose admin flag is false. -/
theorem Register_post_snd_cases (hashFn : String → String)
    (n e p : Option String) (db : DB) :
    (Register_post hashFn n e p db).2 = db ∨
    ∃ u : UserRec, u.is_admin = false ∧
      (Register_post hashFn n e p db).2 = { db with users := db.users ++ [u] } := by
  simp only [Register_post]
  split
  · exact Or.inl rfl
  · split
    · exact Or.inl rfl
    · split
      · exact Or.inl rfl
      · exact Or.inr ⟨_, rfl, rfl⟩

/-- CartResource_post returns the state unchanged on every branch: the two
rejections answer before any write, and the success path raises
IntegrityError so its staged writes roll back. -/
theorem CartResource_post_snd (uid : Int) (b q : Option Int) (db : DB) :
    (CartResource_post uid b q db).2 = db := by
  simp only [CartResource_post]
  split
  · rfl
  · split <;> rfl

/-- MpesaTransactionResource_post returns the state unchanged on both
branches: the rejection answers before any write, and the commit of the
staged row fails on the NOT NULL receipt column and rolls back. -/
theorem MpesaTransactionResource_post_snd (uid : Int) (a : Option Int)
    (db : DB) :
    (MpesaTransactionResource_post uid a db).2 = db := by
  simp only [MpesaTransactionResource_post]
  split <;> rfl

/-- No single public operation writes the Flask session value. -/
theorem applyOp_session_none (op : Op) (db : DB) (h : db.session = none) :
    (applyOp op db).session = none := by
  cases op with
  | register hashFn n e p =>
    rcases Register_post_snd_cases hashFn n e p db with hc | ⟨u, _, hc⟩ <;>
      simp [applyOp, hc, h]
  | cartPost uid b q =>
    simpa [applyOp, CartResource_post_snd] using h
  | mpesaPost uid a =>
    simpa [applyOp, MpesaTransactionResource_post_snd] using h
  | adminLogout => simp [applyOp, AdminLogout_post]
  | _ => simpa [applyOp] using h

/-- No sequence of public operations writes the Flask session value. -/
theorem applyOps_session_none (ops : List Op) (db : DB) (h : db.session = none) :
    (applyOps ops db).session = none := by
  induction ops generalizing db with
  | nil => simpa [applyOps] using h
  | cons op ops ih =>
    have hstep : applyOps (op :: ops) db = applyOps ops (applyOp op db) := by
      simp [applyOps]
    rw [hstep]
    exact ih _ (applyOp_session_none op db h)

/-- No single public operation can introduce an admin user row. -/
theorem applyOp_noAdmins (op : Op) (db : DB) (h : noAdmins db = true) :
    noAdmins (applyOp op db) = true := by
  cases op with
  | register hashFn n e p =>
    rcases Register_post_snd_cases hashFn n e p db with hc | ⟨u, hu, hc⟩
    · simpa [applyOp, hc] using h
    · simp only [applyOp, hc, noAdmins, List.all_append] at h ⊢
      simp [h, hu]
  | cartPost uid b q =>
    simpa [applyOp, CartResource_post_snd] using h
  | mpesaPost uid a =>
    simpa [applyOp, MpesaTransactionResource_post_snd] using h
  | adminLogout => simpa [applyOp, AdminLogout_post, noAdmins] using h
  | _ => simpa [applyOp] using h

/-! ## Claim theorems -/

/-- C9: every user created through the public register operation has
is_admin = false, and no public operation ever sets the admin flag, so from
a state with no admins no sequence of public operations produces an admin. -/
theorem register_only_creates_non_admins :
    (∀ (hashFn : String → String) (n e p : Option String) (db : DB)
        (u : UserRec) (db2 : DB),
        Register_post hashFn n e p db = (.created u, db2) → u.is_admin = false)
    ∧ (∀ (ops : List Op) (db : DB),
        noAdmins db = true → noAdmins (applyOps ops db) = true) := by
  constructor
  · intro hashFn n e p db u db2 h
    simp only [Register_post] at h
    split at h
    · simp at h
    · split at h
      · simp at h
      · split at h
        · simp at h
        · rw [Prod.mk.injEq] at h
          obtain ⟨h1, -⟩ := h
          rw [RegisterResult.created.injEq] at h1
          rw [← h1]
  · intro ops
    induction ops with
    | nil => intro db h; simpa [applyOps] using h
    | cons op ops ih =>
      intro db h
      have hstep : applyOps (op :: ops) db = applyOps ops (applyOp op db) := by
        simp [applyOps]
      rw [hstep]
      exact ih _ (applyOp_noAdmins op db h)

/-- Witness for C9: a concrete run (register, add to cart, record a
payment, logout) from the seeded state produces no admin. -/
theorem register_only_creates_non_admins_witness :
    noAdmins (applyOps
      [Op.register fixtureHash (some "Bob") (some "bob@example.com") (some "pw"),
       Op.cartPost 1 (some 1) (some 2),
       Op.mpesaPost 1 (some 100),
       Op.adminLogout] db0) = true :=
  register_only_creates_non_admins.2 _ db0 (by decide)

/-- C1 (code slip): the admin listing gate reads the Flask session, which
no operation of the live interface ever writes (the JWT login does not set
it), so whenever the session is unset the three admin listings answer 403
regardless of the token identity - even for a caller whose stored is_admin
flag is true - and is_admin is false. -/
theorem admin_listings_locked_by_unset_session :
    (∀ (ops : List Op) (db : DB), db.session = none →
        (applyOps ops db).session = none)
    ∧ (∀ (tok : Int) (db : DB), db.session = none →
        is_admin db = false
        ∧ AdminUserList_get tok db = .forbidden
        ∧ AdminTransactionList_get tok db = .forbidden
        ∧ AdminBorrowingList_get tok db = .forbidden) := by
  constructor
  · exact applyOps_session_none
  · intro tok db h
    have hadm : is_admin db = false := by simp [is_admin, h]
    exact ⟨hadm, by simp [AdminUserList_get, hadm],
      by simp [AdminTransactionList_get, hadm],
      by simp [AdminBorrowingList_get, hadm]⟩

/-- Witness for C1 at the failing input: the stored flag of user 1 is true
and the caller presents the token of user 1, yet all three admin listings
answer forbidden. -/
theorem admin_listings_locked_by_unset_session_witness :
    admin_check 1 dbAdmin = true
    ∧ (is_admin dbAdmin = false
       ∧ AdminUserList_get 1 dbAdmin = .forbidden
       ∧ AdminTransactionList_get 1 dbAdmin = .forbidden
       ∧ AdminBorrowingList_get 1 dbAdmin = .forbidden) :=
  ⟨by decide, admin_listings_locked_by_unset_session.2 1 dbAdmin (by decide)⟩

/-- C8: a cart POST never modifies the books table; in particular a
successful add-to-cart leaves the referenced book row - stock, price,
availability and all other fields - exactly as it was. -/
theorem add_to_cart_books_unchanged (uid : Int) (bid qty : Option Int) (db : DB) :
    (CartResource_post uid bid qty db).2.books = db.books := by
  rw [CartResource_post_snd]

/-- C10: the user-scoped listings return exactly the rows owned by the
token identity: an order is in the response of GET /user/orders iff it is a
stored order of that user, and likewise for GET /user/borrowings. -/
theorem user_scoped_listings_exact (uid : Int) (db : DB) :
    (∀ o : OrderRec, o ∈ UserOrders_get uid db ↔ o ∈ db.orders ∧ o.user_id = uid)
    ∧ (∀ b : BorrowingRec,
        b ∈ UserBorrowings_get uid db ↔ b ∈ db.borrowings ∧ b.user_id = uid) := by
  constructor <;> intro x <;>
    simp [UserOrders_get, UserBorrowings_get, List.mem_filter]

/-- No single public operation can introduce an association row whose
quantity is below 1: the only endpoint that would insert association rows
fails on the explicit INSERT and rolls back, and no other operation writes
the table. -/
theorem applyOp_orderBooksGeOne (op : Op) (db : DB)
    (h : orderBooksGeOne db = true) :
    orderBooksGeOne (applyOp op db) = true := by
  cases op with
  | register hashFn n e p =>
    rcases Register_post_snd_cases hashFn n e p db with hc | ⟨u, -, hc⟩ <;>
      simpa [applyOp, hc, orderBooksGeOne] using h
  | cartPost uid b q =>
    simpa [applyOp, CartResource_post_snd] using h
  | mpesaPost uid a =>
    simpa [applyOp, MpesaTransactionResource_post_snd] using h
  | adminLogout => simpa [applyOp, AdminLogout_post, orderBooksGeOne] using h
  | _ => simpa [applyOp] using h

/-- C5: every row of the order/book association table reachable through
the public operations has quantity >= 1 - the invariant is preserved by
every operation, since the one endpoint that would insert association rows
raises IntegrityError before anything persists (see the C2 analysis) and
no other operation writes the table - and a row created without an
explicit quantity gets the schema default quantity 1. -/
theorem order_books_rows_ge_one_default_one :
    (∀ (ops : List Op) (db : DB),
        orderBooksGeOne db = true → orderBooksGeOne (applyOps ops db) = true)
    ∧ (∀ oid bid : Int, (order_books_insert_row oid bid none).quantity = 1) := by
  constructor
  · intro ops
    induction ops with
    | nil => intro db h; simpa [applyOps] using h
    | cons op ops ih =>
      intro db h
      have hstep : applyOps (op :: ops) db = applyOps ops (applyOp op db) := by
        simp [applyOps]
      rw [hstep]
      exact ih _ (applyOp_orderBooksGeOne op db h)
  · intro oid bid
    rfl

/-- Witness for C5: a concrete run over the seeded state (an add-to-cart
attempt included) keeps every association quantity at least 1, and the
schema default is 1. -/
theorem order_books_rows_ge_one_default_one_witness :
    orderBooksGeOne (applyOps
      [Op.cartPost 1 (some 1) (some 2), Op.cartPost 1 (some 1) (some (-3)),
       Op.register fixtureHash (some "Bob") (some "bob@example.com") (some "pw")]
      db0) = true
    ∧ (order_books_insert_row 5 7 none).quantity = 1 :=
  ⟨order_books_rows_ge_one_default_one.1 _ db0 (by decide),
   order_books_rows_ge_one_default_one.2 5 7⟩

/-- C6: the transaction invariants (amount > 0, status in the spec set)
hold of every transaction reachable through the public operations and are
preserved by every operation that creates or returns a transaction: the
recording endpoint persists nothing because its INSERT violates the NOT
NULL receipt column (the C3 bug), and the admin listing returns the stored
rows exactly as they are. -/
theorem mpesa_invariants_preserved :
    (∀ (ops : List Op) (db : DB),
        mpesaTransactionsInv db = true →
        mpesaTransactionsInv (applyOps ops db) = true)
    ∧ (∀ (uid : Int) (a : Option Int) (db : DB),
        (MpesaTransactionResource_post uid a db).2.transactions
          = db.transactions)
    ∧ (∀ (tok : Int) (db : DB) (rows : List MpesaTransactionRec),
        AdminTransactionList_get tok db = .ok rows → rows = db.transactions) := by
  refine ⟨?_, ?_, ?_⟩
  · intro ops
    induction ops with
    | nil => intro db h; simpa [applyOps] using h
    | cons op ops ih =>
      intro db h
      have hstep : applyOps (op :: ops) db = applyOps ops (applyOp op db) := by
        simp [applyOps]
      rw [hstep]
      refine ih _ ?_
      cases op with
      | register hashFn n e p =>
        rcases Register_post_snd_cases hashFn n e p db with hc | ⟨u, -, hc⟩ <;>
          simpa [applyOp, hc, mpesaTransactionsInv] using h
      | cartPost uid b q =>
        simpa [applyOp, CartResource_post_snd] using h
      | mpesaPost uid a =>
        simpa [applyOp, MpesaTransactionResource_post_snd] using h
      | adminLogout =>
        simpa [applyOp, AdminLogout_post, mpesaTransactionsInv] using h
      | _ => simpa [applyOp] using h
  · intro uid a db
    rw [MpesaTransactionResource_post_snd]
  · intro tok db rows h
    simp only [AdminTransactionList_get] at h
    split at h
    · simp at h
    · rw [AdminListResult.ok.injEq] at h
      exact h.symm

/-- Witness for C6: from a state holding a seeded Completed transaction of
amount 100, a run that includes recording attempts (one even with a
negative amount, which persists nothing) preserves the invariants. -/
theorem mpesa_invariants_preserved_witness :
    mpesaTransactionsInv (applyOps
      [Op.mpesaPost 1 (some 100), Op.mpesaPost 1 (some (-5)),
       Op.adminTransactions 1] dbSeeded) = true :=
  mpesa_invariants_preserved.1 _ dbSeeded (by decide)

/-- C3 (code slip): a missing amount is rejected with 400 before any
write, as claimed; but on the success path the handler stages the
transaction without ever setting mpesa_receipt, which the schema declares
nullable=False, so the INSERT violates the declared schema, the request
raises instead of returning 201, and the state is unchanged - no Pending
row is ever stored. -/
theorem mpesa_receipt_never_set :
    MpesaTransactionResource_post 1 none db0 = (.amountRequired, db0)
    ∧ (MpesaTransactionResource_post 1 (some 100) db0).1
        = .integrityError { id := 1, user_id := 1, amount := 100,
                            transaction_date := 0, mpesa_receipt := none,
                            status := "Pending" }
    ∧ mpesa_receipt_schema_ok
        { id := 1, user_id := 1, amount := 100, transaction_date := 0,
          mpesa_receipt := none, status := "Pending" } = false
    ∧ (MpesaTransactionResource_post 1 (some 100) db0).2 = db0 := by
  decide

/-- C4 amended: registration rejects missing fields with 400; rejects a
duplicate email with 400 regardless of the name and password offered; on an
email that fails the address pattern it raises the uncaught ValueError of
the model validator (HTTP 500, not a handled 400), creating nothing;
otherwise it appends exactly one user whose stored credential is the hash
of the password (never the clear password when the hash function moves it)
and whose admin flag is false. -/
theorem register_full_behaviour :
    (∀ (hashFn : String → String) (n e p : Option String) (db : DB),
        (truthyStr n = false ∨ truthyStr e = false ∨ truthyStr p = false) →
        Register_post hashFn n e p db = (.missingFields, db))
    ∧ (∀ (hashFn : String → String) (n e p : Option String) (db : DB),
        truthyStr n = true → truthyStr e = true → truthyStr p = true →
        db.users.any (fun u => u.email == e.getD "") = true →
        Register_post hashFn n e p db = (.emailExists, db))
    ∧ (∀ (hashFn : String → String) (n e p : Option String) (db : DB),
        truthyStr n = true → truthyStr e = true → truthyStr p = true →
        db.users.any (fun u => u.email == e.getD "") = false →
        validate_email (e.getD "") = false →
        Register_post hashFn n e p db = (.invalidEmail, db)
        ∧ registerHttpStatus (Register_post hashFn n e p db).1 = 500)
    ∧ (∀ (hashFn : String → String) (n e p : Option String) (db : DB),
        truthyStr n = true → truthyStr e = true → truthyStr p = true →
        db.users.any (fun u => u.email == e.getD "") = false →
        validate_email (e.getD "") = true →
        ∃ u : UserRec,
          Register_post hashFn n e p db
            = (.created u, { db with users := db.users ++ [u] })
          ∧ u.email = e.getD "" ∧ u.password_hash = hashFn (p.getD "")
          ∧ u.is_admin = false
          ∧ (hashFn (p.getD "") ≠ p.getD "" → u.password_hash ≠ p.getD "")) := by
  refine ⟨?_, ?_, ?_, ?_⟩
  · intro hashFn n e p db h
    rcases h with h | h | h <;> simp [Register_post, h]
  · intro hashFn n e p db hn he hp hdup
    simp [Register_post, hn, he, hp, hdup]
  · intro hashFn n e p db hn he hp hdup hem
    simp [Register_post, hn, he, hp, hdup, hem, registerHttpStatus]
  · intro hashFn n e p db hn he hp hdup hem
    refine ⟨{ id := (db.users.length : Int) + 1, name := n.getD "",
              email := e.getD "", password_hash := hashFn (p.getD ""),
              is_admin := false }, ?_, rfl, rfl, rfl, fun hne => hne⟩
    simp [Register_post, hn, he, hp, hdup, hem]

/-- Witness for C4 amended: a duplicate registration against the seeded
email fails with the conflict answer even with a fresh name and password,
and a fresh registration stores the hashed (not clear) password and no
admin flag. -/
theorem register_full_behaviour_witness :
    Register_post fixtureHash (some "Mallory") (some "alice@example.com")
        (some "zz") db0 = (.emailExists, db0)
    ∧ fixtureHash "pw" ≠ "pw"
    ∧ ∃ u : UserRec,
        Register_post fixtureHash (some "Bob") (some "bob@example.com")
            (some "pw") db0 = (.created u, { db0 with users := db0.users ++ [u] })
        ∧ u.email = "bob@example.com" ∧ u.password_hash = fixtureHash "pw"
        ∧ u.is_admin = false
        ∧ (fixtureHash "pw" ≠ "pw" → u.password_hash ≠ "pw") :=
  ⟨register_full_behaviour.2.1 fixtureHash (some "Mallory")
      (some "alice@example.com") (some "zz") db0 (by decide) (by decide)
      (by decide) (by decide),
   by decide,
   register_full_behaviour.2.2.2 fixtureHash (some "Bob")
      (some "bob@example.com") (some "pw") db0 (by decide) (by decide)
      (by decide) (by decide) (by decide)⟩

/-- Counterexample to C4 as stated: a well-formed request whose email fails
the address pattern does not get the handled 400 ValidationError; the
validator ValueError escapes the handler, surfacing as HTTP 500 (though no
user is created). -/
theorem register_invalid_email_is_500 :
    Register_post fixtureHash (some "Alice") (some "not-an-email") (some "pw")
        emptyDB = (.invalidEmail, emptyDB)
    ∧ registerHttpStatus
        (Register_post fixtureHash (some "Alice") (some "not-an-email")
          (some "pw") emptyDB).1 = 500
    ∧ ¬(registerHttpStatus
        (Register_post fixtureHash (some "Alice") (some "not-an-email")
          (some "pw") emptyDB).1 = 400) := by
  decide

/-- C7 amended: add-to-cart rejects a missing or zero book_id and a missing
or zero quantity with the 400 missing-fields answer, and a nonzero book_id
matching no stored book with the 404 not-found answer; in every failure
case the state is returned unchanged. (Zero book_id falls in the 400
branch, not the 404 branch the claim states, because the guard tests Python
truthiness.) -/
theorem add_to_cart_rejections :
    (∀ (uid : Int) (bid qty : Option Int) (db : DB),
        (bid = none ∨ bid = some 0 ∨ qty = none ∨ qty = some 0) →
        CartResource_post uid bid qty db = (.missingFields, db))
    ∧ (∀ (uid b q : Int) (db : DB), b ≠ 0 → q ≠ 0 →
        (∀ bk ∈ db.books, bk.id ≠ b) →
        CartResource_post uid (some b) (some q) db = (.bookNotFound, db)) := by
  constructor
  · intro uid bid qty db h
    rcases h with h | h | h | h <;> subst h <;>
      simp [CartResource_post, truthyInt, Bool.or_comm]
  · intro uid b q db hb hq hnone
    have hb' : (b == 0) = false := by simpa using hb
    have hq' : (q == 0) = false := by simpa using hq
    have hfind : db.books.find? (fun bk => bk.id == b) = none := by
      rw [List.find?_eq_none]
      intro bk hbk
      simp [hnone bk hbk]
    simp [CartResource_post, truthyInt, hb', hq', hfind]

/-- Witness for C7 amended: a missing book id is rejected with 400 and an
unknown book id with 404, both leaving the seeded state unchanged. -/
theorem add_to_cart_rejections_witness :
    CartResource_post 1 none (some 2) db0 = (.missingFields, db0)
    ∧ CartResource_post 1 (some 7) (some 2) db0 = (.bookNotFound, db0) :=
  ⟨add_to_cart_rejections.1 1 none (some 2) db0 (Or.inl rfl),
   add_to_cart_rejections.2 1 7 2 db0 (by decide) (by decide) (by decide)⟩

/-- Counterexample to C7 as stated: book_id 0 matches no stored book, yet
the request is answered with the 400 missing-fields error, not the 404
not-found error the claim assigns to nonexistent book ids. -/
theorem add_to_cart_zero_book_id_not_404 :
    (db0.books.all (fun bk => !(bk.id == 0))) = true
    ∧ CartResource_post 1 (some 0) (some 1) db0 = (.missingFields, db0)
    ∧ (CartResource_post 1 (some 0) (some 1) db0).1 ≠ .bookNotFound := by
  decide

/-- C2 (code slip): at the very input the claim describes (existing book,
present quantity), the success path cannot complete: the explicit
association INSERT is built while the freshly added order still has no
primary key, so its order_id value is absent from a NOT NULL primary-key
column (and the relationship append stages a colliding row for the same
key); the request raises IntegrityError, surfaces as HTTP 500, and the
rollback leaves no cart, no order and no association row - the state is
unchanged, not the created-order/201 outcome the claim states. -/
theorem add_to_cart_success_path_raises :
    (db0.books.any (fun bk => bk.id == 1)) = true
    ∧ (CartResource_post 1 (some 1) (some 2) db0).1
        = .integrityError { order_id := none, book_id := 1, quantity := 2 }
    ∧ order_books_insert_schema_ok
        { order_id := none, book_id := 1, quantity := 2 } = false
    ∧ (CartResource_post 1 (some 1) (some 2) db0).2 = db0 := by
  decide
